import Mathlib

/-!
Shallow embedding of the Vision-Guided Audio Navigation System
(`src/navigation_system.py`, `src/object_detector.py`, `src/text_detector.py`,
`src/scene_analyzer.py`, `src/audio_manager.py`, `src/utils.py`).

Real-valued quantities (distances, timestamps, confidences, pixel
coordinates) are modelled over `ℚ`.  External collaborator calls (the YOLO
model, the EasyOCR reader, the cv2 segmentation computation, TTS synthesis)
are modelled as explicit `Except`/flag inputs: the embedding captures exactly
what the repository's own code does with their results, including which
layers catch exceptions and which do not.  cv2 drawing / frame annotation is
visual output with no influence on the returned message or counts and is
elided.
-/

namespace VisionNav

/-- Python `dict.get(k, default)` over an association-list literal. -/
def lookupD {α : Type} : List (String × α) → String → α → α
  | [], _, d => d
  | (k, v) :: rest, key, d => if k = key then v else lookupD rest key d

/-- Model of Python `str.lower()`: character-wise lowercasing. -/
def strLower (s : String) : String := ⟨s.data.map Char.toLower⟩

/-- Model of Python `str.strip()`: drop leading and trailing whitespace. -/
def strStrip (s : String) : String :=
  ⟨((s.data.dropWhile Char.isWhitespace).reverse.dropWhile
      Char.isWhitespace).reverse⟩

/-- Model of Python `needle in hay` on strings: substring containment. -/
def strContains (hay needle : String) : Bool :=
  decide (needle.toList <:+: hay.toList)

/-! Source `src/utils.py`, class `Config`. -/

namespace Config

def YOLO_CONFIDENCE : ℚ := 2/5

def TEXT_CONFIDENCE : ℚ := 2/5

def MAX_ANNOUNCEMENTS : Nat := 4

def OBJECT_PRIORITY : List (String × ℤ) :=
  [("vehicle", 10), ("person", 9), ("bicycle", 8), ("animal", 7),
   ("chair", 6), ("bench", 6), ("traffic light", 5), ("stop sign", 5),
   ("important_text", 4), ("text", 3), ("object", 2),
   ("road", 1), ("sidewalk", 1), ("building", 1), ("vegetation", 1)]

end Config

/-- The per-frame detection record: the common dict shape produced by
`ObjectDetector.detect_objects` and `TextDetector._process_text_detection`
(fields `type`, `label`/`text`, `confidence`, `distance`,
`distance_category`, `position`, `is_important`, `priority`).  The pixel
`bbox` is carried by the raw inputs and consumed during normalization. -/
structure Detection where
  type : String
  label : String := ""
  text : String := ""
  confidence : ℚ := 0
  distance : ℚ
  distance_category : String
  position : String
  is_important : Bool := false
  priority : ℤ
deriving DecidableEq, Repr

namespace ObjectDetector

/-- Embeds `ObjectDetector.__init__`: `self.navigation_classes`. -/
def navigation_classes : List (String × String) :=
  [("person", "person"), ("car", "vehicle"), ("truck", "vehicle"),
   ("bus", "vehicle"), ("motorcycle", "vehicle"), ("bicycle", "bicycle"),
   ("traffic light", "traffic light"), ("stop sign", "stop sign"),
   ("chair", "chair"), ("bench", "bench"), ("cat", "animal"),
   ("dog", "animal"), ("bird", "animal")]

/-- Embeds `_calculate_object_distance`: local `reference_sizes` dict. -/
def reference_sizes : List (String × ℚ) :=
  [("person", 17/10), ("vehicle", 3/2), ("bicycle", 1), ("animal", 1/2),
   ("chair", 1), ("bench", 1), ("traffic light", 2),
   ("stop sign", 2), ("object", 1/2), ("default", 1)]

/-- Embeds `reference_sizes.get(object_type, reference_sizes['default'])` where
`reference_sizes['default'] = 1.0`. -/
def refSize (object_type : String) : ℚ := lookupD reference_sizes object_type 1

/-- Embeds `ObjectDetector._calculate_object_distance` (`src/object_detector.py`
lines 55-69): pinhole estimate `(focal_length * real_height) / bbox_height`
clamped to `[0.5, 20]`, and `20` for a non-positive bbox height. -/
def calculate_object_distance (bbox_height : ℚ) (object_type : String) : ℚ :=
  let real_height := refSize object_type
  let focal_length : ℚ := 500
  if bbox_height > 0 then
    max (1/2) (min (focal_length * real_height / bbox_height) 20)
  else 20

/-- Embeds `ObjectDetector._get_object_position`. -/
def get_object_position (x1 x2 : ℚ) (frame_width : ℚ) : String :=
  let x_center := (x1 + x2) / 2
  let third := frame_width / 3
  if x_center < third then "left"
  else if x_center < 2 * third then "center"
  else "right"

/-- Embeds `ObjectDetector._get_distance_category` (`src/object_detector.py`
lines 83-94). -/
def get_distance_category (distance : ℚ) : String :=
  if distance < 2 then "very close"
  else if distance < 4 then "close"
  else if distance < 7 then "moderate distance"
  else if distance < 10 then "far"
  else "very far"

/-- One box as delivered by the external YOLO model (already thresholded at
`Config.YOLO_CONFIDENCE` by the model call itself). -/
structure RawBox where
  x1 : ℚ
  y1 : ℚ
  x2 : ℚ
  y2 : ℚ
  conf : ℚ
  label : String
deriving DecidableEq

/-- Embeds `ObjectDetector.detect_objects`: normalizes each raw model box into a
`Detection`.  The external model call may throw — `detect_objects` has no
try/except, so a model failure propagates to its caller. -/
def detect_objects (model_results : Except String (List RawBox))
    (frame_width : ℚ) : Except String (List Detection) :=
  match model_results with
  | Except.error e => Except.error e
  | Except.ok boxes => Except.ok (boxes.map fun b =>
      let nav_label := lookupD navigation_classes (strLower b.label) "object"
      let bbox_height := b.y2 - b.y1
      let distance := calculate_object_distance bbox_height nav_label
      { type := "object"
        label := nav_label
        distance := distance
        distance_category := get_distance_category distance
        position := get_object_position b.x1 b.x2 frame_width
        confidence := b.conf
        priority := lookupD Config.OBJECT_PRIORITY nav_label 2 })

end ObjectDetector

namespace TextDetector

/-- Embeds `TextDetector.__init__`: `self.important_keywords`. -/
def important_keywords : List String :=
  ["exit", "entrance", "warning", "danger", "caution", "stop",
   "stairs", "elevator", "escalator", "crosswalk", "curb",
   "emergency", "hospital", "police", "fire", "help"]

/-- Embeds `TextDetector.__init__`: `self.text_size_reference = 100`. -/
def text_size_reference : ℚ := 100

/-- Embeds `TextDetector._calculate_text_distance` (`src/text_detector.py`
lines 96-101): `10.0` for a non-positive height, otherwise
`(text_size_reference * 2.0) / bbox_height` clamped to `[0.5, 15]`. -/
def calculate_text_distance (bbox_height : ℚ) : ℚ :=
  if bbox_height ≤ 0 then 10
  else max (1/2) (min (text_size_reference * 2 / bbox_height) 15)

/-- Embeds `TextDetector._get_text_position`: mean x-coordinate of the four corner
points against frame thirds. -/
def get_text_position (bbox : List (ℚ × ℚ)) (frame_width : ℚ) : String :=
  let x_coords := bbox.map Prod.fst
  let x_center := x_coords.sum / x_coords.length
  let third := frame_width / 3
  if x_center < third then "left"
  else if x_center < 2 * third then "center"
  else "right"

/-- Embeds `TextDetector._get_distance_category` (`src/text_detector.py`
lines 116-127) — a verbatim duplicate of the object detector's. -/
def text_distance_category (distance : ℚ) : String :=
  if distance < 2 then "very close"
  else if distance < 4 then "close"
  else if distance < 7 then "moderate distance"
  else if distance < 10 then "far"
  else "very far"

/-- Python `max(list)` on a nonempty list (guarded by `len(bbox) >= 4`). -/
def listMax : List ℚ → ℚ
  | [] => 0
  | x :: xs => xs.foldl max x

/-- Python `min(list)` on a nonempty list (guarded by `len(bbox) >= 4`). -/
def listMin : List ℚ → ℚ
  | [] => 0
  | x :: xs => xs.foldl min x

/-- One raw EasyOCR result tuple `(bbox, text, confidence)`. -/
structure RawText where
  bbox : List (ℚ × ℚ)
  text : String
  confidence : ℚ
deriving DecidableEq

/-- Embeds `TextDetector._process_text_detection` (`src/text_detector.py`
lines 72-94). -/
def process_text_detection (bbox : List (ℚ × ℚ)) (text : String)
    (confidence : ℚ) (frame_width : ℚ) : Option Detection :=
  let clean_text := strLower (strStrip text)
  if bbox.length ≥ 4 then
    let y_coords := bbox.map Prod.snd
    let text_height := listMax y_coords - listMin y_coords
    let distance := calculate_text_distance text_height
    let is_important := important_keywords.any fun keyword =>
      strContains clean_text keyword
    some { type := "text"
           text := clean_text
           confidence := confidence
           position := get_text_position bbox frame_width
           distance := distance
           distance_category := text_distance_category distance
           is_important := is_important
           priority := if is_important then 4 else 3 }
  else none

/-- Embeds `TextDetector.detect_text` (`src/text_detector.py` lines 35-61).
`reader` models `self.reader is not None`; the external `readtext` call is
an `Except` and its failure is caught here (the `try`/`except` returning
`[]`). -/
def detect_text (reader : Bool)
    (ocr_results : Except String (List RawText))
    (frame_width : ℚ) : List Detection :=
  if reader = false then []
  else
    match ocr_results with
    | Except.error _ => []
    | Except.ok results =>
        results.filterMap fun r =>
          if r.confidence > Config.TEXT_CONFIDENCE ∧ 1 < (strStrip r.text).length then
            process_text_detection r.bbox r.text r.confidence frame_width
          else none

end TextDetector

namespace SceneAnalyzer

/-- Embeds `SceneAnalyzer._analyze_segmentation_map` result shape. -/
structure SceneAnalysis where
  guidance : List String
  environment : String
deriving DecidableEq

/-- Embeds `SceneAnalyzer._perform_segmentation`: the cv2 color-segmentation
computation (modelled as an `Except` input) is wrapped in `try`/`except`
returning an all-zero map on failure. -/
def perform_segmentation (seg : Except String (List (List Nat)))
    (h w : Nat) : List (List Nat) :=
  match seg with
  | Except.ok m => m
  | Except.error _ => List.replicate h (List.replicate w 0)

/-- Embeds `SceneAnalyzer._analyze_segmentation_map`: road-pixel share of the
bottom 30 percent of the map. -/
def analyze_segmentation_map (seg_map : List (List Nat)) : SceneAnalysis :=
  let h := seg_map.length
  let immediate_path := seg_map.drop (7 * h / 10)
  let road_pixels := (immediate_path.map fun row =>
    (row.filter fun p => p = 0).length).sum
  let total_pixels := (immediate_path.map List.length).sum
  if total_pixels > 0 then
    let road_percentage := ((road_pixels : ℚ) / total_pixels) * 100
    if road_percentage > 60 then ⟨["Clear path ahead"], "road"⟩
    else if road_percentage > 30 then ⟨["Moderate path clarity"], "mixed"⟩
    else ⟨["Obstructed path ahead"], "obstructed"⟩
  else ⟨[], "unknown"⟩

/-- Embeds `SceneAnalyzer.analyze_scene`: total — every internal failure is caught
inside `_perform_segmentation`. -/
def analyze_scene (seg : Except String (List (List Nat)))
    (h w : Nat) : SceneAnalysis :=
  analyze_segmentation_map (perform_segmentation seg h w)

end SceneAnalyzer

namespace AudioManager

/-- One entry of the append-only announcement log
(`self.audio_timestamps`). -/
structure AudioEntry where
  filename : String
  timestamp : ℚ
  timestamp_str : String
  text : String
deriving DecidableEq

/-- Mutable state of `AudioManager` (`src/audio_manager.py` `__init__`):
the speech slot flag, the append-only logs and the session start time. -/
structure AudioManagerState where
  audio_files : List String
  audio_timestamps : List AudioEntry
  speaking : Bool
  video_start_time : Option ℚ
deriving DecidableEq

/-- Two-digit zero padding used by Python `f"{n:02d}"`. -/
def pad2 (n : ℤ) : String :=
  if 0 ≤ n ∧ n < 10 then "0" ++ toString n else toString n

/-- Embeds `AudioManager._format_timestamp`: `MM:SS` from a timestamp in seconds
(Python `int(t // 60)` and `int(t % 60)`). -/
def format_timestamp (timestamp : ℚ) : String :=
  let minutes := ⌊timestamp / 60⌋
  let seconds := ⌊timestamp⌋ % 60
  pad2 minutes ++ ":" ++ pad2 seconds

/-- Embeds `AudioManager.speak_text` (`src/audio_manager.py` lines 20-54).
`now` models `time.time()`; `tts` models the external gTTS synthesis
(`Except.ok filename` or an exception).  Returns the updated state and
whether the call proceeded past the guard (`False` = rejected / dropped).
The guard `if not text or self.speaking: return` rejects immediately with
no state change.  On the accepted path the slot is taken, the log entries
are appended when synthesis succeeds (a synthesis failure is caught and
logged with no appends), and the `finally` block always clears the
`speaking` flag. -/
def speak_text (st : AudioManagerState) (text : String)
    (timestamp : Option ℚ) (now : ℚ) (tts : Except String String) :
    AudioManagerState × Bool :=
  if text = "" ∨ st.speaking = true then (st, false)
  else
    let timestamp :=
      if timestamp = none then
        match st.video_start_time with
        | some start => if start = 0 then timestamp else some (now - start)
        | none => timestamp
      else timestamp
    let ts := timestamp.getD 0
    let timestamp_str := format_timestamp ts
    match tts with
    | Except.error _ => ({ st with speaking := false }, true)
    | Except.ok audio_filename =>
        ({ st with
            audio_files := st.audio_files ++ [audio_filename]
            audio_timestamps := st.audio_timestamps ++
              [⟨audio_filename, ts, timestamp_str, text⟩]
            speaking := false }, true)

end AudioManager

namespace AudioNavigationSystem

open ObjectDetector TextDetector SceneAnalyzer

/-- Orchestrator state (`src/navigation_system.py` `__init__`):
`self.last_announcement = time.time()` at session start, updated after each
dispatched announcement in `process_frame`; and `self._current_frame`, read
by `_detect_text_with_cooldown` at line 60 but set neither by `__init__`
nor by any other statement in the repository — `none` models the attribute being
absent, so it is `none` in every reachable state, and reading it raises
`AttributeError`. -/
structure OrchestratorState where
  last_announcement : ℚ
  current_frame : Option Unit
deriving DecidableEq

/-- Embeds `AudioNavigationSystem._get_comprehensive_priority`
(`src/navigation_system.py` lines 161-180). -/
def get_comprehensive_priority (item : Detection) : ℚ :=
  let base_priority : ℚ := (item.priority : ℚ)
  let distance := item.distance
  let distance_factor₀ := max 0 (10 - distance) / 2
  let position_factor : ℚ := if item.position = "center" then 2 else 1
  let distance_factor :=
    if item.type = "object" ∧ item.position = "center" ∧ distance < 3 ∧
        item.label ∈ ["vehicle", "person", "bicycle"] then
      distance_factor₀ + 3
    else distance_factor₀
  base_priority * position_factor + distance_factor

/-- Embeds `AudioNavigationSystem._format_object_announcement`
(`src/navigation_system.py` lines 182-195). -/
def format_object_announcement (item : Detection) : String :=
  if item.position = "center" ∧ item.distance < 3 then
    if item.label ∈ ["vehicle", "person", "bicycle"] then
      "⚠️ WARNING! " ++ item.label ++ " directly ahead, " ++
        item.distance_category
    else
      "Obstacle directly ahead, " ++ item.distance_category
  else
    item.label ++ " on your " ++ item.position ++ ", " ++
      item.distance_category

/-- Embeds `AudioNavigationSystem._format_text_announcement`. -/
def format_text_announcement (item : Detection) : String :=
  if item.is_important then
    "Sign: " ++ item.text ++ " " ++ item.distance_category ++ " on your " ++
      item.position
  else
    "Text: " ++ item.text

/-- Stable descending insertion: place `x` before the first element whose
key is less than or equal to `x`'s key, so that elements with equal keys
keep their original relative order. -/
def insertDesc {α : Type} (key : α → ℚ) (x : α) : List α → List α
  | [] => [x]
  | y :: ys => if key y ≤ key x then x :: y :: ys else y :: insertDesc key x ys

/-- Stable sort by descending key (insertion sort). -/
def sortByDesc {α : Type} (key : α → ℚ) : List α → List α
  | [] => []
  | x :: xs => insertDesc key x (sortByDesc key xs)

/-- Python `list.sort(key=..., reverse=True)`: stable sort by descending
composite priority. -/
def sortDetections (l : List Detection) : List Detection :=
  sortByDesc get_comprehensive_priority l

/-- The selection loop of `_generate_announcement`: walk the sorted records
carrying `announced_count`, emitting one formatted message per recognized
record until `Config.MAX_ANNOUNCEMENTS` is reached. -/
def selectMessages : List Detection → Nat → List String
  | [], _ => []
  | item :: rest, announced_count =>
    if announced_count ≥ Config.MAX_ANNOUNCEMENTS then []
    else if item.type = "object" then
      format_object_announcement item :: selectMessages rest (announced_count + 1)
    else if item.type = "text" ∧ announced_count < Config.MAX_ANNOUNCEMENTS then
      format_text_announcement item :: selectMessages rest (announced_count + 1)
    else
      selectMessages rest announced_count

/-- The bounded message list emitted for a frame's detections: sort by
descending composite priority, then run the selection loop from count 0. -/
def generateMessages (all_detections : List Detection) : List String :=
  selectMessages (sortDetections all_detections) 0

/-- Embeds `AudioNavigationSystem._generate_announcement`
(`src/navigation_system.py` lines 133-159).  The `seg_analysis` argument is
accepted and ignored, exactly as in the source. -/
def generate_announcement (all_detections : List Detection)
    (seg_analysis : SceneAnalysis) : String :=
  if all_detections.isEmpty then "Path clear"
  else
    let _ := seg_analysis
    let messages := generateMessages all_detections
    if messages.isEmpty then "Path clear"
    else String.intercalate ". " messages

/-- The dispatch guard in `process_frame`:
`if message and message != "Path clear"`. -/
def shouldDispatch (message : String) : Bool :=
  decide (message ≠ "") && decide (message ≠ "Path clear")

/-- The text-detection cooldown condition of `_detect_text_with_cooldown`:
`(current_time - self.last_announcement) > 2.0`. -/
def text_gate (st : OrchestratorState) (current_time : ℚ) : Bool :=
  decide (current_time - st.last_announcement > 2)

/-- The `AttributeError` raised by reading `self._current_frame`, an
attribute no statement in the repository ever assigns. -/
def attributeError_current_frame : String :=
  "AttributeError: AudioNavigationSystem object has no attribute _current_frame"

/-- Embeds `AudioNavigationSystem._detect_text_with_cooldown`
(`src/navigation_system.py` lines 55-61).  When the gate passes, the source
first evaluates the call argument `self._current_frame`; that attribute is
never assigned anywhere in the repository, so the read raises
`AttributeError` (the `none` case) before `detect_text` is ever entered,
and nothing in this method catches it.  With the gate closed the result is
the empty list. -/
def detect_text_with_cooldown (st : OrchestratorState) (current_time : ℚ)
    (reader : Bool) (ocr : Except String (List RawText))
    (frame_width : ℚ) : Except String (List Detection) :=
  if text_gate st current_time then
    match st.current_frame with
    | none => Except.error attributeError_current_frame
    | some _ => Except.ok (detect_text reader ocr frame_width)
  else Except.ok []

/-- The caller-visible payload of `process_frame`: the chosen message and
the per-modality record counts (the annotated frame is cv2 visual output,
elided). -/
structure FrameResult where
  message : String
  objCount : Nat
  textCount : Nat
deriving DecidableEq

/-- Embeds `AudioNavigationSystem.process_frame` (`src/navigation_system.py`
lines 32-53).  External calls appear as `Except`/flag inputs; exception
flow follows the source: `detect_objects` is not wrapped in any
`try`/`except`, so its failure propagates out of `process_frame`; the
`AttributeError` raised inside `_detect_text_with_cooldown` whenever the
text gate is open is equally uncaught and propagates; only OCR and
segmentation failures are caught, inside their detectors.  On dispatch
(`message` nonempty and not the sentinel) `last_announcement` is set to
the current time; no statement assigns `_current_frame`. -/
def process_frame (st : OrchestratorState) (now : ℚ)
    (frame_width : ℚ) (frame_height frame_width_px : Nat)
    (model_results : Except String (List RawBox))
    (reader : Bool) (ocr : Except String (List RawText))
    (seg : Except String (List (List Nat))) :
    Except String (OrchestratorState × FrameResult) :=
  match ObjectDetector.detect_objects model_results frame_width with
  | Except.error e => Except.error e
  | Except.ok objects_info =>
      match detect_text_with_cooldown st now reader ocr frame_width with
      | Except.error e => Except.error e
      | Except.ok text_info =>
          let seg_analysis := analyze_scene seg frame_height frame_width_px
          let all_detections := objects_info ++ text_info
          let message := generate_announcement all_detections seg_analysis
          let st' := if shouldDispatch message = true then
              { st with last_announcement := now } else st
          Except.ok (st', ⟨message, objects_info.length, text_info.length⟩)

end AudioNavigationSystem

end VisionNav

namespace VisionNav

/-! ## Claim theorems -/

open ObjectDetector TextDetector SceneAnalyzer AudioNavigationSystem

/-- C1 (counterexample).  The claim says `process_frame` never fails because
every external detector failure is caught at the Frame Orchestrator
boundary.  In the source, the object-detection call is not wrapped in any
`try`/`except`: here a failing object-detector call propagates out of
`process_frame`, so the caller does not receive a frame and message. -/
theorem c1_object_detector_failure_propagates :
    process_frame ⟨0, none⟩ 1 300 100 100
      (Except.error "object detector crashed")
      true (Except.ok []) (Except.ok [[0]]) =
    Except.error "object detector crashed" := rfl

/-- C1 (amended).  Failures of the scene-segmentation computation are
caught inside the Scene Analyzer, and the text-OCR exception handler sits
inside the Text Detector; nothing is caught at the Frame Orchestrator
boundary.  `process_frame` succeeds exactly on the narrow path where the
object-detection call succeeds and the text-cooldown gate is closed: an
object-detection failure propagates to the caller, and whenever the gate
is open `process_frame` raises the `AttributeError` from reading the
never-assigned `_current_frame` (so the OCR call, and its handler, are
never even reached from `process_frame`). -/
theorem c1_error_containment :
    (∀ (st : OrchestratorState) (now fw : ℚ) (fh fwpx : Nat)
        (boxes : List RawBox) (reader : Bool)
        (ocr : Except String (List RawText))
        (seg : Except String (List (List Nat))),
      text_gate st now = false →
      ∃ res, process_frame st now fw fh fwpx (Except.ok boxes) reader ocr seg =
        Except.ok res) ∧
    (∀ (st : OrchestratorState) (now fw : ℚ) (fh fwpx : Nat) (e : String)
        (reader : Bool) (ocr : Except String (List RawText))
        (seg : Except String (List (List Nat))),
      process_frame st now fw fh fwpx (Except.error e) reader ocr seg =
        Except.error e) ∧
    (∀ (st : OrchestratorState) (now fw : ℚ) (fh fwpx : Nat)
        (boxes : List RawBox) (reader : Bool)
        (ocr : Except String (List RawText))
        (seg : Except String (List (List Nat))),
      st.current_frame = none → text_gate st now = true →
      process_frame st now fw fh fwpx (Except.ok boxes) reader ocr seg =
        Except.error attributeError_current_frame) := by
  refine ⟨?_, ?_, ?_⟩
  · intro st now fw fh fwpx boxes reader ocr seg hgate
    have hdt : detect_text_with_cooldown st now reader ocr fw =
        Except.ok [] := by
      simp [detect_text_with_cooldown, hgate]
    simp only [process_frame, ObjectDetector.detect_objects, hdt]
    exact ⟨_, rfl⟩
  · intro st now fw fh fwpx e reader ocr seg
    rfl
  · intro st now fw fh fwpx boxes reader ocr seg hcf hgate
    have hdt : detect_text_with_cooldown st now reader ocr fw =
        Except.error attributeError_current_frame := by
      simp [detect_text_with_cooldown, hgate, hcf]
    simp only [process_frame, ObjectDetector.detect_objects, hdt]

/-- C1 witness: a session-start frame at time 1 (gate closed) succeeds,
while the same frame at time 5 (gate open, `_current_frame` absent) fails
with the `AttributeError`. -/
theorem c1_error_containment_witness :
    (∃ res, process_frame ⟨0, none⟩ 1 300 100 100 (Except.ok []) true
        (Except.ok []) (Except.ok [[0]]) = Except.ok res) ∧
    process_frame ⟨0, none⟩ 5 300 100 100 (Except.ok []) true
        (Except.ok []) (Except.ok [[0]]) =
      Except.error attributeError_current_frame :=
  ⟨c1_error_containment.1 ⟨0, none⟩ 1 300 100 100 [] true (Except.ok [])
      (Except.ok [[0]]) (by with_unfolding_all decide),
   c1_error_containment.2.2 ⟨0, none⟩ 5 300 100 100 [] true (Except.ok [])
      (Except.ok [[0]]) rfl (by with_unfolding_all decide)⟩

/-- C3 (counterexample).  The claim says that for a degenerate bounding-box
height the text-distance estimator returns its upper clamp bound `15.0`.
At height `0` the source returns the fixed value `10.0`, not `15.0`. -/
theorem c3_text_sentinel_is_ten :
    calculate_text_distance 0 = 10 ∧ calculate_text_distance 0 ≠ 15 := by
  constructor <;> with_unfolding_all decide

/-- C3 (amended).  For every bounding-box height `h ≤ 0` neither estimator
raises: the object estimator returns its upper clamp bound `20.0`, while
the text estimator returns the fixed fallback `10.0` (which is not its
upper clamp bound `15.0`). -/
theorem c3_degenerate_height_fallbacks (t : String) (h : ℚ) (hh : h ≤ 0) :
    calculate_object_distance h t = 20 ∧ calculate_text_distance h = 10 := by
  constructor
  · unfold calculate_object_distance
    rw [if_neg (by simpa using hh)]
  · unfold calculate_text_distance
    rw [if_pos hh]

/-- C3 witness: the amended statement evaluated at height `-5` for a
`person` box. -/
theorem c3_degenerate_height_fallbacks_witness :
    calculate_object_distance (-5) "person" = 20 ∧
    calculate_text_distance (-5) = 10 :=
  c3_degenerate_height_fallbacks "person" (-5) (by norm_num)

/-- Every entry of the reference-size table is positive, and so is the
default, hence every looked-up reference height is positive. -/
theorem refSize_pos (t : String) : 0 < refSize t := by
  unfold refSize
  have : ∀ p ∈ reference_sizes, 0 < p.2 := by with_unfolding_all decide
  generalize reference_sizes = l at this
  induction l with
  | nil => norm_num [lookupD]
  | cons p rest ih =>
    simp only [lookupD]
    split
    · exact this p (List.mem_cons_self p rest)
    · exact ih fun q hq => this q (List.mem_cons_of_mem p hq)

/-- C7.  For all bounding-box heights `h > 0` and any fixed label, each
distance estimator is monotonically non-increasing in the height, and its
output lies in the configured clamp range: `[0.5, 20]` for object records
and `[0.5, 15]` for text records. -/
theorem c7_distance_monotone_and_clamped :
    (∀ (t : String) (h₁ h₂ : ℚ), 0 < h₁ → h₁ ≤ h₂ →
      calculate_object_distance h₂ t ≤ calculate_object_distance h₁ t) ∧
    (∀ (t : String) (h : ℚ), 0 < h →
      1/2 ≤ calculate_object_distance h t ∧
        calculate_object_distance h t ≤ 20) ∧
    (∀ h₁ h₂ : ℚ, 0 < h₁ → h₁ ≤ h₂ →
      calculate_text_distance h₂ ≤ calculate_text_distance h₁) ∧
    (∀ h : ℚ, 0 < h →
      1/2 ≤ calculate_text_distance h ∧ calculate_text_distance h ≤ 15) := by
  refine ⟨?_, ?_, ?_, ?_⟩
  · intro t h₁ h₂ h1 hle
    have h2 : 0 < h₂ := lt_of_lt_of_le h1 hle
    have hr : (0:ℚ) ≤ 500 * refSize t := by
      have := refSize_pos t
      positivity
    unfold calculate_object_distance
    rw [if_pos (by simpa using h2), if_pos (by simpa using h1)]
    have hdiv : 500 * refSize t / h₂ ≤ 500 * refSize t / h₁ := by gcongr
    exact max_le_max le_rfl (min_le_min hdiv le_rfl)
  · intro t h hpos
    unfold calculate_object_distance
    rw [if_pos (by simpa using hpos)]
    exact ⟨le_max_left _ _, max_le (by norm_num) (min_le_right _ _)⟩
  · intro h₁ h₂ h1 hle
    have h2 : 0 < h₂ := lt_of_lt_of_le h1 hle
    unfold calculate_text_distance
    rw [if_neg (not_le.mpr h2), if_neg (not_le.mpr h1)]
    have hdiv : text_size_reference * 2 / h₂ ≤ text_size_reference * 2 / h₁ := by
      have : (0:ℚ) ≤ text_size_reference * 2 := by norm_num [text_size_reference]
      gcongr
    exact max_le_max le_rfl (min_le_min hdiv le_rfl)
  · intro h hpos
    unfold calculate_text_distance
    rw [if_neg (not_le.mpr hpos)]
    exact ⟨le_max_left _ _, max_le (by norm_num) (min_le_right _ _)⟩

/-- C7 witness: monotonicity and range evaluated at heights `100 ≤ 200`
for a `person` box and `20 ≤ 40` for a text box. -/
theorem c7_distance_monotone_and_clamped_witness :
    calculate_object_distance 200 "person" ≤
      calculate_object_distance 100 "person" ∧
    (1/2 ≤ calculate_object_distance 200 "person" ∧
      calculate_object_distance 200 "person" ≤ 20) ∧
    calculate_text_distance 40 ≤ calculate_text_distance 20 ∧
    (1/2 ≤ calculate_text_distance 40 ∧ calculate_text_distance 40 ≤ 15) :=
  ⟨c7_distance_monotone_and_clamped.1 "person" 100 200 (by norm_num)
      (by norm_num),
   c7_distance_monotone_and_clamped.2.1 "person" 200 (by norm_num),
   c7_distance_monotone_and_clamped.2.2.1 20 40 (by norm_num) (by norm_num),
   c7_distance_monotone_and_clamped.2.2.2 40 (by norm_num)⟩

/-- C8.  Both copies of the distance categorizer realize the step function
over thresholds `{2, 4, 7, 10}`, each threshold value falling in the
farther category: `1.9` is very close, `2.0` and `3.9` close, `4.0` and
`6.9` moderate, `7.0` and `9.9` far, `10.0` very far; and the two copies
agree on every input. -/
theorem c8_distance_category_step_function :
    get_distance_category (19/10) = "very close" ∧
    get_distance_category 2 = "close" ∧
    get_distance_category (39/10) = "close" ∧
    get_distance_category 4 = "moderate distance" ∧
    get_distance_category (69/10) = "moderate distance" ∧
    get_distance_category 7 = "far" ∧
    get_distance_category (99/10) = "far" ∧
    get_distance_category 10 = "very far" ∧
    ∀ d : ℚ, text_distance_category d = get_distance_category d := by
  refine ⟨?_, ?_, ?_, ?_, ?_, ?_, ?_, ?_, fun d => rfl⟩ <;>
    with_unfolding_all decide

/-- C9.  Invoking `speak_text` while an utterance is in flight
(`speaking = true`) or with an empty message is rejected immediately with
no side effect: the returned state is the input state unchanged (log and
slot untouched) and the accepted flag is `false`. -/
theorem c9_trySpeak_rejected_no_side_effect
    (st : AudioManager.AudioManagerState) (text : String)
    (timestamp : Option ℚ) (now : ℚ) (tts : Except String String)
    (h : text = "" ∨ st.speaking = true) :
    AudioManager.speak_text st text timestamp now tts = (st, false) := by
  unfold AudioManager.speak_text
  rw [if_pos h]

/-- C9 witness: a busy slot rejects a nonempty message and leaves the
state untouched. -/
theorem c9_trySpeak_rejected_no_side_effect_witness :
    AudioManager.speak_text ⟨["a.mp3"], [], true, none⟩ "Obstacle ahead"
      none 5 (Except.ok "b.mp3") = (⟨["a.mp3"], [], true, none⟩, false) :=
  c9_trySpeak_rejected_no_side_effect ⟨["a.mp3"], [], true, none⟩
    "Obstacle ahead" none 5 (Except.ok "b.mp3") (Or.inr rfl)


/-- The selection loop never emits more than
`Config.MAX_ANNOUNCEMENTS - announced_count` messages. -/
theorem selectMessages_length_bound :
    ∀ (l : List Detection) (c : Nat),
      (selectMessages l c).length ≤ Config.MAX_ANNOUNCEMENTS - c := by
  intro l
  induction l with
  | nil => intro c; simp [selectMessages]
  | cons x xs ih =>
    intro c
    unfold selectMessages
    split
    · simp
    next hc =>
      split
      · simp only [List.length_cons]
        have := ih (c + 1)
        omega
      · split
        · simp only [List.length_cons]
          have := ih (c + 1)
          omega
        · exact le_trans (ih c) (by omega)

/-- C6.  The announcement selector never emits more than
`Config.MAX_ANNOUNCEMENTS = 4` messages per frame; with zero input records
the generated announcement is exactly the sentinel `"Path clear"`; and the
orchestrator's dispatch guard passes neither the sentinel nor an empty
message to Speech Dispatch. -/
theorem c6_selector_bounded_and_sentinel_suppressed :
    (∀ dets : List Detection,
      (generateMessages dets).length ≤ Config.MAX_ANNOUNCEMENTS) ∧
    (∀ seg : SceneAnalysis, generate_announcement [] seg = "Path clear") ∧
    shouldDispatch "Path clear" = false ∧
    shouldDispatch "" = false := by
  refine ⟨fun dets => ?_, fun seg => rfl, by decide, by decide⟩
  simpa using selectMessages_length_bound (sortDetections dets) 0

/-- C5 (counterexample).  The claim says a critical object dead ahead is
announced exactly as `"WARNING: <label> directly ahead, <category>"`.  The
source emits the prefix `"⚠️ WARNING! "` (warning sign and exclamation
mark), not `"WARNING: "`: the two strings differ. -/
theorem c5_warning_prefix_differs :
    format_object_announcement
      ⟨"object", "vehicle", "", 1, 15/8, "very close", "center", false, 10⟩ =
      "⚠️ WARNING! vehicle directly ahead, very close" ∧
    "⚠️ WARNING! vehicle directly ahead, very close" ≠
      "WARNING: vehicle directly ahead, very close" := by
  constructor <;> with_unfolding_all decide

/-- C5 (amended).  For an object at position center with distance below 3
the announcement is exactly `"⚠️ WARNING! <label> directly ahead,
<distanceCategory>"` when the label is critical and exactly `"Obstacle
directly ahead, <distanceCategory>"` otherwise; every other object record
is announced as `"<label> on your <position>, <distanceCategory>"`. -/
theorem c5_object_announcement_format (item : Detection) :
    (item.position = "center" → item.distance < 3 →
      (item.label ∈ ["vehicle", "person", "bicycle"] →
        format_object_announcement item =
          "⚠️ WARNING! " ++ item.label ++ " directly ahead, " ++
            item.distance_category) ∧
      (item.label ∉ ["vehicle", "person", "bicycle"] →
        format_object_announcement item =
          "Obstacle directly ahead, " ++ item.distance_category)) ∧
    (¬ (item.position = "center" ∧ item.distance < 3) →
      format_object_announcement item =
        item.label ++ " on your " ++ item.position ++ ", " ++
          item.distance_category) := by
  unfold format_object_announcement
  constructor
  · intro hpos hdist
    rw [if_pos ⟨hpos, hdist⟩]
    constructor
    · intro hl; rw [if_pos hl]
    · intro hl; rw [if_neg hl]
  · intro hn; rw [if_neg hn]

/-- C5 witness: the amended formatting rules evaluated on a critical
center object and on an off-center object. -/
theorem c5_object_announcement_format_witness :
    format_object_announcement
      ⟨"object", "vehicle", "", 1, 15/8, "very close", "center", false, 10⟩ =
      "⚠️ WARNING! " ++ "vehicle" ++ " directly ahead, " ++ "very close" ∧
    format_object_announcement
      ⟨"object", "person", "", 1, 5, "moderate distance", "left", false, 9⟩ =
      "person" ++ " on your " ++ "left" ++ ", " ++ "moderate distance" :=
  ⟨((c5_object_announcement_format
        ⟨"object", "vehicle", "", 1, 15/8, "very close", "center", false, 10⟩).1
      rfl (by with_unfolding_all decide)).1 (by decide),
   (c5_object_announcement_format
        ⟨"object", "person", "", 1, 5, "moderate distance", "left", false, 9⟩).2
      (by with_unfolding_all decide)⟩

/-- C2 (counterexample).  The claim says the OCR detector is invoked
exactly when more than 2 s have elapsed since the last text detection.  At
session start (`last_announcement = 0`, no text detection has ever run)
consider a frame at time 3: the elapsed time since any text detection
exceeds 2 s, so the claim demands that OCR be invoked and its records be
this frame's text detections.  Instead, the gate `(3 - 0) > 2` being open,
the source reads the never-assigned `self._current_frame` and raises
`AttributeError` before the OCR call: the OCR detector is not invoked, and
`process_frame` fails rather than yielding this frame's text
detections. -/
theorem c2_gate_open_raises_before_ocr :
    text_gate ⟨0, none⟩ 3 = true ∧
    detect_text_with_cooldown ⟨0, none⟩ 3 true
        (Except.ok [⟨[(0, 0), (10, 0), (10, 20), (0, 20)], "EXIT ", 1/2⟩])
        300 =
      Except.error attributeError_current_frame ∧
    process_frame ⟨0, none⟩ 3 300 100 100 (Except.ok []) true
        (Except.ok [⟨[(0, 0), (10, 0), (10, 20), (0, 20)], "EXIT ", 1/2⟩])
        (Except.ok [[0]]) =
      Except.error attributeError_current_frame :=
  ⟨by with_unfolding_all decide, by with_unfolding_all rfl,
   by with_unfolding_all rfl⟩

/-- C2 (amended).  The text/OCR detector is never successfully invoked
from `process_frame`: when `now - last_announcement ≤ 2.0`
(`last_announcement` being the time of the last dispatched announcement,
initialized at session start) that frame's text detections are the empty
list, and when `now - last_announcement > 2.0` the orchestrator raises the
`AttributeError` from reading the never-assigned `_current_frame` before
the OCR call, so the frame fails; accordingly every frame that
`process_frame` completes reports zero text records. -/
theorem c2_text_cooldown_gate :
    (∀ (st : OrchestratorState) (now : ℚ) (reader : Bool)
        (ocr : Except String (List RawText)) (fw : ℚ),
      now - st.last_announcement ≤ 2 →
        detect_text_with_cooldown st now reader ocr fw = Except.ok []) ∧
    (∀ (st : OrchestratorState) (now : ℚ) (reader : Bool)
        (ocr : Except String (List RawText)) (fw : ℚ),
      st.current_frame = none → now - st.last_announcement > 2 →
        detect_text_with_cooldown st now reader ocr fw =
          Except.error attributeError_current_frame) ∧
    (∀ (st : OrchestratorState) (now fw : ℚ) (fh fwpx : Nat)
        (boxes : List RawBox) (reader : Bool)
        (ocr : Except String (List RawText))
        (seg : Except String (List (List Nat)))
        (st' : OrchestratorState) (res : FrameResult),
      st.current_frame = none →
      process_frame st now fw fh fwpx (Except.ok boxes) reader ocr seg =
        Except.ok (st', res) →
      res.textCount = 0) := by
  refine ⟨?_, ?_, ?_⟩
  · intro st now reader ocr fw h
    simp [detect_text_with_cooldown, text_gate, not_lt.mpr h]
  · intro st now reader ocr fw hcf h
    simp [detect_text_with_cooldown, text_gate, h, hcf]
  · intro st now fw fh fwpx boxes reader ocr seg st' res hcf hpf
    by_cases h : now - st.last_announcement > 2
    · have hdt : detect_text_with_cooldown st now reader ocr fw =
          Except.error attributeError_current_frame := by
        simp [detect_text_with_cooldown, text_gate, h, hcf]
      simp only [process_frame, ObjectDetector.detect_objects, hdt] at hpf
      exact absurd hpf (by simp)
    · have hdt : detect_text_with_cooldown st now reader ocr fw =
          Except.ok [] := by
        simp [detect_text_with_cooldown, text_gate, h]
      simp only [process_frame, ObjectDetector.detect_objects, hdt,
        List.length_nil, Except.ok.injEq, Prod.mk.injEq] at hpf
      obtain ⟨-, hres⟩ := hpf
      rw [← hres]

/-- C2 witness: the amended gate evaluated on both sides of the
threshold at session start, and the zero-text-record consequence on a
completed frame. -/
theorem c2_text_cooldown_gate_witness :
    detect_text_with_cooldown ⟨0, none⟩ 1 true (Except.ok []) 300 =
      Except.ok [] ∧
    detect_text_with_cooldown ⟨0, none⟩ 5 true (Except.ok []) 300 =
      Except.error attributeError_current_frame :=
  ⟨c2_text_cooldown_gate.1 ⟨0, none⟩ 1 true (Except.ok []) 300
      (by with_unfolding_all decide),
   c2_text_cooldown_gate.2.1 ⟨0, none⟩ 5 true (Except.ok []) 300 rfl
      (by with_unfolding_all decide)⟩


/-- C4.  A collision-risk object record (label in
{vehicle, person, bicycle}, position center, distance below 3, priority
taken from the fixed object-priority table) scores strictly higher on the
composite priority than every text record (important or not, at any
position, at any distance in the valid text range `[0.5, 15]`, priority 4
when important and 3 otherwise). -/
theorem c4_critical_center_object_outranks_text
    (o t : Detection)
    (ho_type : o.type = "object")
    (ho_label : o.label ∈ ["vehicle", "person", "bicycle"])
    (ho_pos : o.position = "center")
    (ho_dist : o.distance < 3)
    (ho_pri : o.priority = lookupD Config.OBJECT_PRIORITY o.label 2)
    (ht_type : t.type = "text")
    (ht_pri : t.priority = if t.is_important = true then 4 else 3)
    (ht_lo : 1/2 ≤ t.distance) (ht_hi : t.distance ≤ 15) :
    get_comprehensive_priority t < get_comprehensive_priority o := by
  have hbase : (8:ℚ) ≤ (o.priority : ℚ) := by
    have hmem := ho_label
    simp only [List.mem_cons, List.not_mem_nil, or_false] at hmem
    rcases hmem with h | h | h <;> rw [ho_pri, h] <;>
      with_unfolding_all decide
  have ht_base : (t.priority : ℚ) ≤ 4 ∧ (0:ℚ) ≤ (t.priority : ℚ) := by
    rw [ht_pri]
    cases t.is_important <;> norm_num
  have ho_max : max (0:ℚ) (10 - o.distance) = 10 - o.distance :=
    max_eq_right (by linarith)
  have ht_max : max (0:ℚ) (10 - t.distance) ≤ 19/2 :=
    max_le (by norm_num) (by linarith)
  have hscore_o : get_comprehensive_priority o =
      (o.priority : ℚ) * 2 + ((10 - o.distance) / 2 + 3) := by
    simp only [get_comprehensive_priority]
    rw [if_pos ho_pos, if_pos ⟨ho_type, ho_pos, ho_dist, ho_label⟩, ho_max]
  have hscore_t : get_comprehensive_priority t =
      (t.priority : ℚ) * (if t.position = "center" then (2:ℚ) else 1) +
        max 0 (10 - t.distance) / 2 := by
    simp only [get_comprehensive_priority]
    rw [if_neg (show ¬ (t.type = "object" ∧ t.position = "center" ∧
        t.distance < 3 ∧ t.label ∈ ["vehicle", "person", "bicycle"]) from
      fun hcond => absurd (ht_type.symm.trans hcond.1) (by decide))]
  rw [hscore_o, hscore_t]
  by_cases hc : t.position = "center"
  · rw [if_pos hc]
    linarith [ht_base.1, ht_base.2, ht_max, hbase, ho_dist]
  · rw [if_neg hc]
    linarith [ht_base.1, ht_base.2, ht_max, hbase, ho_dist]

/-- C4 witness: a vehicle dead ahead at distance 2 against an important
`exit` sign dead ahead at the closest valid text distance 0.5. -/
theorem c4_critical_center_object_outranks_text_witness :
    get_comprehensive_priority
        ⟨"text", "", "exit", 1, 1/2, "very close", "center", true, 4⟩ <
      get_comprehensive_priority
        ⟨"object", "vehicle", "", 1, 2, "close", "center", false, 10⟩ :=
  c4_critical_center_object_outranks_text
    ⟨"object", "vehicle", "", 1, 2, "close", "center", false, 10⟩
    ⟨"text", "", "exit", 1, 1/2, "very close", "center", true, 4⟩
    rfl (by decide) rfl (by with_unfolding_all decide) (by decide) rfl
    (by decide) (by with_unfolding_all decide) (by with_unfolding_all decide)

/-- C10.  Every record returned by the text detector has confidence
strictly above `Config.TEXT_CONFIDENCE = 0.4`, text equal to the stripped
lowercased raw OCR text with length at least 2, importance flag set exactly
when that text contains one of the fixed safety keywords, and priority 4
when important and 3 otherwise. -/
theorem c10_text_record_invariant (reader : Bool)
    (ocr : Except String (List TextDetector.RawText)) (fw : ℚ)
    (d : Detection) (hd : d ∈ detect_text reader ocr fw) :
    d.confidence > Config.TEXT_CONFIDENCE ∧
    2 ≤ d.text.length ∧
    (d.is_important = true ↔
      ∃ k ∈ TextDetector.important_keywords, k.toList <:+: d.text.toList) ∧
    (d.priority = if d.is_important = true then 4 else 3) ∧
    ∃ results, ocr = Except.ok results ∧
      ∃ r ∈ results, d.text = strLower (strStrip r.text) ∧
        d.confidence = r.confidence := by
  unfold detect_text at hd
  split at hd
  · exact absurd hd (List.not_mem_nil d)
  · rcases ocr with e | results
    · exact absurd hd (List.not_mem_nil d)
    · simp only [List.mem_filterMap] at hd
      obtain ⟨r, hr, hsome⟩ := hd
      by_cases hcond :
          r.confidence > Config.TEXT_CONFIDENCE ∧ 1 < (strStrip r.text).length
      · rw [if_pos hcond] at hsome
        unfold process_text_detection at hsome
        by_cases hb : r.bbox.length ≥ 4
        · rw [if_pos hb, Option.some.injEq] at hsome
          subst hsome
          refine ⟨hcond.1, ?_, ?_, ?_, results, rfl, r, hr, rfl, rfl⟩
          · rw [show (strLower (strStrip r.text)).length =
                  ((strStrip r.text).data.map Char.toLower).length from rfl,
              List.length_map]
            exact hcond.2
          · simp [strContains]
          · rfl
        · rw [if_neg hb] at hsome
          exact absurd hsome (by simp)
      · rw [if_neg hcond] at hsome
        exact absurd hsome (by simp)

/-- The concrete raw OCR tuple used in the C10 witness. -/
def c10RawW : TextDetector.RawText :=
  ⟨[(0, 0), (10, 0), (10, 20), (0, 20)], "EXIT ", 1/2⟩

/-- The record the text detector produces from `c10RawW` in a 300-pixel
frame. -/
def c10DW : Detection :=
  ⟨"text", "", "exit", 1/2, 10, "very far", "left", true, 4⟩

/-- C10 witness: the invariant evaluated on the record produced from one
concrete OCR result reading `"EXIT "` at confidence 0.5. -/
theorem c10_text_record_invariant_witness :
    c10DW.confidence > Config.TEXT_CONFIDENCE ∧
    2 ≤ c10DW.text.length ∧
    (c10DW.is_important = true ↔
      ∃ k ∈ TextDetector.important_keywords, k.toList <:+: c10DW.text.toList) ∧
    (c10DW.priority = if c10DW.is_important = true then 4 else 3) ∧
    ∃ results, (Except.ok [c10RawW] :
        Except String (List TextDetector.RawText)) = Except.ok results ∧
      ∃ r ∈ results, c10DW.text = strLower (strStrip r.text) ∧
        c10DW.confidence = r.confidence :=
  c10_text_record_invariant true (Except.ok [c10RawW]) 300 c10DW
    (by with_unfolding_all decide)

end VisionNav
